import Mathlib

/- Verification development for the physics / collision / game-state core of
   the labyrinth ball game.

   Embedded source:
   - src/game.rs : geometry primitives, level and game data model, the
     per-frame update (semi-implicit Euler integration, board-edge and wall
     collision handling, win / lose transitions), angle setters.
   - src/lib.rs  : the fall animation function animate_ball_falling_in_hole.

   Modelling conventions:
   - f32 scalars are modelled as rationals (every f32 value is rational);
     float rounding is idealised away, as the spec reasons in exact arithmetic.
   - The source only ever uses Euclidean distance inside comparisons
     (distance_to(q) < r with r > 0).  Since sqrt is monotone and both sides
     are nonnegative, distance < r is equivalent to squared distance < r^2;
     the embedding therefore works with Point.dist_sq throughout and compares
     against the squared radius.  Each use site notes the original form.
   - The source constant ACCEL_COEFF = 100.0 / PI is irrational as a real
     number; since no claim depends on its value, the physics step takes it
     as an explicit parameter accel.
   - Rust Instant timestamps are modelled as rationals; duration_since
     saturates at zero, modelled with max.
   - glm / f32 sqrt is needed by the fall animation for actual values (not
     just comparisons), so that function family takes an explicit
     sqrt : Rat -> Rat parameter standing for f32::sqrt.
-/

/-- Source constant BALL_R = 1.0 (src/game.rs). -/
def BALL_R : ℚ := 1

/-- Source constant HOLE_R = 1.25 * BALL_R (src/game.rs). -/
def HOLE_R : ℚ := 5/4 * BALL_R

/-- Source constant BOUNCE_COEFF = 0.2 (src/game.rs). -/
def BOUNCE_COEFF : ℚ := 1/5

/-- Point with x/y coordinates (src/game.rs struct Point). -/
structure Point where
  x : ℚ
  y : ℚ
deriving DecidableEq, Repr

/-- Width/height pair (src/game.rs struct Size). -/
structure Size where
  w : ℚ
  h : ℚ
deriving DecidableEq, Repr

/-- Axis-aligned rectangle, pos is the top-left corner (src/game.rs struct Rect). -/
structure Rect where
  pos : Point
  size : Size
deriving DecidableEq, Repr

/-- Velocity vector (src/game.rs struct Velocity). -/
structure Velocity where
  x : ℚ
  y : ℚ
deriving DecidableEq, Repr

/-- Squared Euclidean distance between two points.  The source function
Point::distance_to returns sqrt of this quantity; it is used by the game
logic only in comparisons distance_to < r with r > 0, each of which is
embedded as dist_sq < r^2 (equivalent since sqrt is monotone on
nonnegatives). -/
def Point.dist_sq (self other : Point) : ℚ :=
  (other.x - self.x)^2 + (other.y - self.y)^2

/-- Point containment, half-open on the right/bottom sides
(src/game.rs Rect::contains). -/
def Rect.contains (self : Rect) (p : Point) : Bool :=
  decide (p.x ≥ self.pos.x) && decide (p.x < self.pos.x + self.size.w)
    && decide (p.y ≥ self.pos.y) && decide (p.y < self.pos.y + self.size.h)

/-- Rect sharing its left edge with self (src/game.rs Rect::adjacent_left). -/
def Rect.adjacent_left (self : Rect) (w : ℚ) : Rect :=
  { pos := { x := self.pos.x - w, y := self.pos.y },
    size := { w := w, h := self.size.h } }

/-- Rect sharing its right edge with self (src/game.rs Rect::adjacent_right). -/
def Rect.adjacent_right (self : Rect) (w : ℚ) : Rect :=
  { pos := { x := self.pos.x + self.size.w, y := self.pos.y },
    size := { w := w, h := self.size.h } }

/-- Rect sharing its top edge with self (src/game.rs Rect::adjacent_top). -/
def Rect.adjacent_top (self : Rect) (h : ℚ) : Rect :=
  { pos := { x := self.pos.x, y := self.pos.y - h },
    size := { w := self.size.w, h := h } }

/-- Rect sharing its bottom edge with self (src/game.rs Rect::adjacent_bottom). -/
def Rect.adjacent_bottom (self : Rect) (h : ℚ) : Rect :=
  { pos := { x := self.pos.x, y := self.pos.y + self.size.h },
    size := { w := self.size.w, h := h } }

/-- Top-left corner (src/game.rs Rect::top_left). -/
def Rect.top_left (self : Rect) : Point := self.pos

/-- Top-right corner (src/game.rs Rect::top_right). -/
def Rect.top_right (self : Rect) : Point :=
  { x := self.pos.x + self.size.w, y := self.pos.y }

/-- Bottom-left corner (src/game.rs Rect::bottom_left). -/
def Rect.bottom_left (self : Rect) : Point :=
  { x := self.pos.x, y := self.pos.y + self.size.h }

/-- Bottom-right corner (src/game.rs Rect::bottom_right). -/
def Rect.bottom_right (self : Rect) : Point :=
  { x := self.pos.x + self.size.w, y := self.pos.y + self.size.h }

/- Corner sectors.  The source's collides_* functions test
   corner.angle_to(ball).is_in_range(a, b) where angle_to is
   atan2(dy, dx) with dx = ball.x - corner.x, dy = ball.y - corner.y,
   atan2 ranging over (-pi, pi], and is_in_range(a, b) means a <= angle < b.
   Membership of atan2(dy, dx) in each of the eight half-open octant ranges
   used by the source is equivalent to sign/comparison conditions on dx, dy
   (rationals have no atan2).  Each predicate below documents its range and
   the equivalent condition; the equivalences follow from the standard atan2
   quadrant case analysis:
     range [-pi, -3pi/4)   <=> dy < 0 ∧ dx < dy          (angle -pi itself is
                                unattained: atan2(0, negative) = +pi)
     range [3pi/4, pi)     <=> 0 < dy ∧ dx ≤ -dy
     range [-pi/4, 0)      <=> dy < 0 ∧ -dx ≤ dy
     range [0, pi/4)       <=> 0 ≤ dy ∧ dy < dx
     range [-3pi/4, -pi/2) <=> dy ≤ dx ∧ dx < 0
     range [-pi/2, -pi/4)  <=> 0 ≤ dx ∧ dx < -dy
     range [pi/2, 3pi/4)   <=> -dy < dx ∧ dx ≤ 0
     range [pi/4, pi/2)    <=> 0 < dx ∧ dx ≤ dy
-/

/-- atan2-range test of src/game.rs collides_left, top-left corner:
angle_to in [-pi, -3pi/4). -/
def sector_left_tl (corner ball : Point) : Bool :=
  decide (ball.y - corner.y < 0) && decide (ball.x - corner.x < ball.y - corner.y)

/-- atan2-range test of src/game.rs collides_left, bottom-left corner:
angle_to in [3pi/4, pi). -/
def sector_left_bl (corner ball : Point) : Bool :=
  decide (0 < ball.y - corner.y) && decide (ball.x - corner.x ≤ -(ball.y - corner.y))

/-- atan2-range test of src/game.rs collides_right, top-right corner:
angle_to in [-pi/4, 0). -/
def sector_right_tr (corner ball : Point) : Bool :=
  decide (ball.y - corner.y < 0) && decide (-(ball.x - corner.x) ≤ ball.y - corner.y)

/-- atan2-range test of src/game.rs collides_right, bottom-right corner:
angle_to in [0, pi/4). -/
def sector_right_br (corner ball : Point) : Bool :=
  decide (0 ≤ ball.y - corner.y) && decide (ball.y - corner.y < ball.x - corner.x)

/-- atan2-range test of src/game.rs collides_top, top-left corner:
angle_to in [-3pi/4, -pi/2). -/
def sector_top_tl (corner ball : Point) : Bool :=
  decide (ball.y - corner.y ≤ ball.x - corner.x) && decide (ball.x - corner.x < 0)

/-- atan2-range test of src/game.rs collides_top, top-right corner:
angle_to in [-pi/2, -pi/4). -/
def sector_top_tr (corner ball : Point) : Bool :=
  decide (0 ≤ ball.x - corner.x) && decide (ball.x - corner.x < -(ball.y - corner.y))

/-- atan2-range test of src/game.rs collides_bottom, bottom-left corner:
angle_to in [pi/2, 3pi/4). -/
def sector_bottom_bl (corner ball : Point) : Bool :=
  decide (-(ball.y - corner.y) < ball.x - corner.x) && decide (ball.x - corner.x ≤ 0)

/-- atan2-range test of src/game.rs collides_bottom, bottom-right corner:
angle_to in [pi/4, pi/2). -/
def sector_bottom_br (corner ball : Point) : Bool :=
  decide (0 < ball.x - corner.x) && decide (ball.x - corner.x ≤ ball.y - corner.y)

/-- src/game.rs collides_left: ball is in the BALL_R-wide strip adjacent to
the wall's left edge, or within distance BALL_R of the top-left corner with
angle in [-pi, -3pi/4), or within BALL_R of the bottom-left corner with
angle in [3pi/4, pi).  Source distance_to < BALL_R is embedded squared. -/
def collides_left (ball_pos : Point) (wall : Rect) : Bool :=
  (wall.adjacent_left BALL_R).contains ball_pos
    || (decide (Point.dist_sq wall.top_left ball_pos < BALL_R^2)
        && sector_left_tl wall.top_left ball_pos)
    || (decide (Point.dist_sq wall.bottom_left ball_pos < BALL_R^2)
        && sector_left_bl wall.bottom_left ball_pos)

/-- src/game.rs collides_right (strip right of the wall, or the two
right-corner eighth circles). -/
def collides_right (ball_pos : Point) (wall : Rect) : Bool :=
  (wall.adjacent_right BALL_R).contains ball_pos
    || (decide (Point.dist_sq wall.top_right ball_pos < BALL_R^2)
        && sector_right_tr wall.top_right ball_pos)
    || (decide (Point.dist_sq wall.bottom_right ball_pos < BALL_R^2)
        && sector_right_br wall.bottom_right ball_pos)

/-- src/game.rs collides_top (strip above the wall, or the two top-corner
eighth circles). -/
def collides_top (ball_pos : Point) (wall : Rect) : Bool :=
  (wall.adjacent_top BALL_R).contains ball_pos
    || (decide (Point.dist_sq wall.top_left ball_pos < BALL_R^2)
        && sector_top_tl wall.top_left ball_pos)
    || (decide (Point.dist_sq wall.top_right ball_pos < BALL_R^2)
        && sector_top_tr wall.top_right ball_pos)

/-- src/game.rs collides_bottom (strip below the wall, or the two
bottom-corner eighth circles). -/
def collides_bottom (ball_pos : Point) (wall : Rect) : Bool :=
  (wall.adjacent_bottom BALL_R).contains ball_pos
    || (decide (Point.dist_sq wall.bottom_left ball_pos < BALL_R^2)
        && sector_bottom_bl wall.bottom_left ball_pos)
    || (decide (Point.dist_sq wall.bottom_right ball_pos < BALL_R^2)
        && sector_bottom_br wall.bottom_right ball_pos)

/-- src/game.rs bounce_x: clamp pos.x to edge_x and reflect/damp v.x.
The source mutates in place; the embedding returns the updated pair. -/
def bounce_x (pos : Point) (vel : Velocity) (edge_x : ℚ) : Point × Velocity :=
  ({ pos with x := edge_x }, { vel with x := -BOUNCE_COEFF * vel.x })

/-- src/game.rs bounce_y: clamp pos.y to edge_y and reflect/damp v.y. -/
def bounce_y (pos : Point) (vel : Velocity) (edge_y : ℚ) : Point × Velocity :=
  ({ pos with y := edge_y }, { vel with y := -BOUNCE_COEFF * vel.y })

/-- Game state (src/game.rs enum State).  In this variant of the source the
Lost constructor carries no payload. -/
inductive State where
  | InProgress : State
  | Won : State
  | Lost : State
deriving DecidableEq, Repr

/-- Level description (src/game.rs struct Level).  The field named end in
the source is called end_ here (end is a Lean keyword). -/
structure Level where
  name : String
  size : Size
  start : Point
  end_ : Rect
  walls : List Rect
  holes : List Point
deriving DecidableEq, Repr

/-- Game state record (src/game.rs struct Game).  Timestamps (Rust Instant)
are modelled as rationals. -/
structure Game where
  state : State
  ball_pos : Point
  ball_v : Velocity
  prev_update : Option ℚ
  angle_x : ℚ
  angle_y : ℚ
  level : Level
deriving DecidableEq, Repr

/-- src/game.rs Game::new: ball at the level's start, zero velocity, no
previous update, zero angles. -/
def Game.new (lvl : Level) : Game :=
  { state := State.InProgress,
    ball_pos := lvl.start,
    ball_v := { x := 0, y := 0 },
    prev_update := none,
    angle_x := 0,
    angle_y := 0,
    level := lvl }

/-- src/game.rs Game::set_x_angle: assigns angle_x directly. -/
def Game.set_x_angle (g : Game) (angle : ℚ) : Game :=
  { g with angle_x := angle }

/-- src/game.rs Game::set_y_angle: assigns angle_y directly. -/
def Game.set_y_angle (g : Game) (angle : ℚ) : Game :=
  { g with angle_y := angle }

/-- Elapsed seconds used by src/game.rs Game::update:
time.duration_since(prev_update.unwrap_or(time)).  With no previous update
the duration is zero; Instant::duration_since saturates at zero, hence the
max. -/
def Game.dt (g : Game) (time : ℚ) : ℚ :=
  match g.prev_update with
  | none => 0
  | some t0 => max (time - t0) 0

/-- Physics step of src/game.rs Game::update: semi-implicit Euler.
accel stands for the source constant ACCEL_COEFF = 100.0 / PI (irrational,
and no claim depends on its value, so it is a parameter).  Returns the
tentative (velocity, position) before any collision handling. -/
def tentative (accel : ℚ) (g : Game) (time : ℚ) : Velocity × Point :=
  let dt := g.dt time
  let v : Velocity :=
    { x := g.ball_v.x + g.angle_x * accel * dt,
      y := g.ball_v.y + g.angle_y * accel * dt }
  let p : Point :=
    { x := g.ball_pos.x + v.x * dt,
      y := g.ball_pos.y + v.y * dt }
  (v, p)

/-- Board edge collision block of src/game.rs Game::update: the four ifs are
applied sequentially, each reading the position already corrected by the
previous ones. -/
def edgeCollide (size : Size) (p : Point) (v : Velocity) : Point × Velocity :=
  let pv1 := if p.x < BALL_R then bounce_x p v BALL_R else (p, v)
  let pv2 :=
    if pv1.1.x ≥ size.w - BALL_R then bounce_x pv1.1 pv1.2 (size.w - BALL_R)
    else pv1
  let pv3 := if pv2.1.y < BALL_R then bounce_y pv2.1 pv2.2 BALL_R else pv2
  if pv3.1.y ≥ size.h - BALL_R then bounce_y pv3.1 pv3.2 (size.h - BALL_R)
  else pv3

/-- Per-wall body of the wall loop in src/game.rs Game::update: an else-if
chain over the four directional predicates; at most one bounce is applied
per wall. -/
def wallCollide (p : Point) (v : Velocity) (wall : Rect) : Point × Velocity :=
  if collides_left p wall then bounce_x p v (wall.pos.x - BALL_R)
  else if collides_right p wall then
    bounce_x p v (wall.pos.x + wall.size.w + BALL_R)
  else if collides_top p wall then bounce_y p v (wall.pos.y - BALL_R)
  else if collides_bottom p wall then
    bounce_y p v (wall.pos.y + wall.size.h + BALL_R)
  else (p, v)

/-- Corrected (position, velocity) of one update frame: integrator, then
board edges, then the sequential fold over the walls in declaration order
(src/game.rs Game::update, physics and collision sections). -/
def correctedPV (accel : ℚ) (g : Game) (time : ℚ) : Point × Velocity :=
  let vp := tentative accel g time
  let pv1 := edgeCollide g.level.size vp.2 vp.1
  g.level.walls.foldl (fun pv wall => wallCollide pv.1 pv.2 wall) pv1

/-- Hole test of src/game.rs Game::update:
level.holes.iter().find(|h| p.distance_to(h) < HOLE_R).is_some(), with the
distance comparison embedded squared. -/
def holeFound (p : Point) (holes : List Point) : Bool :=
  (holes.find? (fun h => decide (Point.dist_sq p h < HOLE_R^2))).isSome

/-- src/game.rs Game::update.  In a terminal state it returns immediately;
otherwise it integrates, resolves collisions, then runs the two independent
ifs of the source: first the goal-rectangle check setting Won, then the hole
check setting Lost (each assigns self.state; the hole assignment, when both
fire, happens second and wins).  Finally ball_pos, ball_v and prev_update
are stored. -/
def Game.update (accel : ℚ) (g : Game) (time : ℚ) : Game :=
  match g.state with
  | State.InProgress =>
      let pv := correctedPV accel g time
      let st1 := if g.level.end_.contains pv.1 then State.Won else State.InProgress
      let st2 := if holeFound pv.1 g.level.holes then State.Lost else st1
      { g with state := st2, ball_pos := pv.1, ball_v := pv.2,
               prev_update := some time }
  | _ => g

/- Fall animation (src/lib.rs animate_ball_falling_in_hole).  It needs
   actual square roots (glm::normalize, glm::distance, and the height
   formula), so the whole family takes sqrt : Rat -> Rat standing for
   f32::sqrt. -/

/-- 2d vector as used via glm::vec2 in src/lib.rs. -/
structure Vec2 where
  x : ℚ
  y : ℚ
deriving DecidableEq, Repr

/-- Componentwise vector addition (glm). -/
def Vec2.add (a b : Vec2) : Vec2 := { x := a.x + b.x, y := a.y + b.y }

/-- Componentwise vector subtraction (glm). -/
def Vec2.sub (a b : Vec2) : Vec2 := { x := a.x - b.x, y := a.y - b.y }

/-- Scalar multiplication (glm). -/
def Vec2.scale (a : Vec2) (s : ℚ) : Vec2 := { x := a.x * s, y := a.y * s }

/-- glm::length with the abstract sqrt. -/
def Vec2.length (sqrt : ℚ → ℚ) (a : Vec2) : ℚ := sqrt (a.x^2 + a.y^2)

/-- glm::normalize: the vector divided by its length. -/
def Vec2.normalize (sqrt : ℚ → ℚ) (a : Vec2) : Vec2 :=
  { x := a.x / Vec2.length sqrt a, y := a.y / Vec2.length sqrt a }

/-- glm::distance between two points. -/
def Vec2.dist (sqrt : ℚ → ℚ) (a b : Vec2) : ℚ :=
  Vec2.length sqrt (Vec2.sub b a)

/-- Source constant ROLL_OVER_DURATION = 0.1 (src/lib.rs). -/
def ROLL_OVER_DURATION : ℚ := 1/10

/-- Source constant FREE_FALL_DURATION = 0.1 (src/lib.rs). -/
def FREE_FALL_DURATION : ℚ := 1/10

/-- Source constant TOTAL_DURATION (src/lib.rs). -/
def TOTAL_DURATION : ℚ := ROLL_OVER_DURATION + FREE_FALL_DURATION

/-- Source constant FREE_FALL_DEPTH = 3.0 * BALL_R (src/lib.rs). -/
def FREE_FALL_DEPTH : ℚ := 3 * BALL_R

/-- The xy-point where the ball has completely rolled over the hole edge
(src/lib.rs, local free_fall_point):
hole + normalize(ball0 - hole) * (HOLE_R - BALL_R). -/
def free_fall_point (sqrt : ℚ → ℚ) (ball0 hole : Vec2) : Vec2 :=
  Vec2.add hole (Vec2.scale (Vec2.normalize sqrt (Vec2.sub ball0 hole)) (HOLE_R - BALL_R))

/-- src/lib.rs animate_ball_falling_in_hole: ball (x, y, height) during the
lost-state animation, None when the animation is over. -/
def animate_ball_falling_in_hole (sqrt : ℚ → ℚ) (t : ℚ)
    (last_ball_pos hole_pos : Point) : Option (ℚ × ℚ × ℚ) :=
  let hole : Vec2 := { x := hole_pos.x, y := hole_pos.y }
  let ball0 : Vec2 := { x := last_ball_pos.x, y := last_ball_pos.y }
  let ffp := free_fall_point sqrt ball0 hole
  if t < ROLL_OVER_DURATION then
    let xy := Vec2.add ball0 (Vec2.scale (Vec2.sub ffp ball0) (t / ROLL_OVER_DURATION))
    let ds_hole_edge := HOLE_R - Vec2.dist sqrt hole xy
    some (xy.x, xy.y, sqrt (BALL_R^2 - ds_hole_edge^2))
  else if t < TOTAL_DURATION then
    some (ffp.x, ffp.y, -(t - ROLL_OVER_DURATION) / FREE_FALL_DURATION * FREE_FALL_DEPTH)
  else none

/- Spec-side definitions used for refinement comparisons.  These follow the
   spec's words, not the source, and are compared against the source-derived
   definitions above. -/

/-- Componentwise clamp used by the spec's closest-point formulation. -/
def clampQ (x lo hi : ℚ) : ℚ := max lo (min x hi)

/-- Closest point of a filled wall rectangle to the ball center, written
from the spec's words (section 4.4): half = wall.size / 2,
center = wall.pos + half, closest = center + clamp(ball - center, -half, half)
componentwise. -/
def closestPoint (ball : Point) (wall : Rect) : Point :=
  { x := wall.pos.x + wall.size.w / 2
        + clampQ (ball.x - (wall.pos.x + wall.size.w / 2))
            (-(wall.size.w / 2)) (wall.size.w / 2),
    y := wall.pos.y + wall.size.h / 2
        + clampQ (ball.y - (wall.pos.y + wall.size.h / 2))
            (-(wall.size.h / 2)) (wall.size.h / 2) }

/-- Tentative physics state written from the spec's words (section 4.3):
dt = now - prev_update, or 0 if prev_update is None;
v1 = v + (angle_x, angle_y) * ACCEL_COEFF * dt; p1 = p + v1 * dt. -/
def specTentative (accel : ℚ) (g : Game) (time : ℚ) : Velocity × Point :=
  let dt : ℚ :=
    match g.prev_update with
    | none => 0
    | some tp => time - tp
  let v : Velocity :=
    { x := g.ball_v.x + g.angle_x * accel * dt,
      y := g.ball_v.y + g.angle_y * accel * dt }
  let p : Point :=
    { x := g.ball_pos.x + v.x * dt,
      y := g.ball_pos.y + v.y * dt }
  (v, p)

/-- Modelled from the spec: MAX_ANGLE.  The constant is absent from the
sources here (this game.rs variant predates it; src/ai.rs refers to
game::MAX_ANGLE only as a caller) and the spec treats it as a positive
tuning constant without fixing its value.  The violation proved below
reaches arbitrarily large angles, so any positive value exhibits it; the
representative value 1/2 is fixed here. -/
def MAX_ANGLE : ℚ := 1/2

/-- A reference level with no walls and no holes, used by concrete
witnesses. -/
def lvl0 : Level :=
  { name := "flat",
    size := { w := 20, h := 20 },
    start := { x := 2, y := 2 },
    end_ := { pos := { x := 18, y := 18 }, size := { w := 1, h := 1 } },
    walls := [],
    holes := [] }

/-- A game already in the Won state, used by concrete witnesses. -/
def gWon : Game :=
  { state := State.Won,
    ball_pos := { x := 2, y := 2 },
    ball_v := { x := 3, y := -1 },
    prev_update := some 1,
    angle_x := 0,
    angle_y := 0,
    level := lvl0 }

/-- set_x_angle reaches any target value, so no fixed bound confines
angle_x over all call sequences. -/
theorem set_x_angle_reaches_any (g : Game) (M : ℚ) :
    (g.set_x_angle (M + 1)).angle_x = M + 1 := rfl

/-- C7: once the state is Won or Lost, every further update call returns the
game record unchanged: state, ball position, velocity and prev_update all
keep their values and no physics or collision step runs. -/
theorem update_terminal_is_noop (accel : ℚ) (g : Game) (time : ℚ)
    (h : g.state ≠ State.InProgress) :
    Game.update accel g time = g := by
  unfold Game.update
  cases hs : g.state
  · exact absurd hs h
  · rfl
  · rfl

/-- Witness for C7 at a concrete terminal game. -/
theorem update_terminal_is_noop_witness :
    gWon.state ≠ State.InProgress ∧ Game.update 0 gWon 3 = gWon :=
  ⟨by decide, update_terminal_is_noop 0 gWon 3 (by decide)⟩

/-- C6: the tentative pre-collision state of an update is semi-implicit
Euler with dt = now - prev_update (0 when prev_update is none): the
source-derived tentative step agrees with the spec formulas whenever the
previous timestamp does not exceed the current one, and a first update
after creation or resume (prev_update = none) integrates over zero elapsed
time, leaving velocity and position unchanged. -/
theorem tentative_semi_implicit_euler (accel : ℚ) (g : Game) (time : ℚ)
    (h : ∀ t0 ∈ g.prev_update, t0 ≤ time) :
    tentative accel g time = specTentative accel g time ∧
      (g.prev_update = none →
        tentative accel g time = (g.ball_v, g.ball_pos)) := by
  constructor
  · unfold tentative specTentative Game.dt
    cases hp : g.prev_update with
    | none => rfl
    | some t0 =>
        have ht : t0 ≤ time := h t0 (by simp [hp])
        have hm : max (time - t0) 0 = time - t0 :=
          max_eq_left (by linarith)
        simp only [hm]
  · intro hp
    unfold tentative Game.dt
    simp [hp]

/-- Witness for C6 on a freshly created game (prev_update = none). -/
theorem tentative_semi_implicit_euler_witness :
    tentative 0 (Game.new lvl0) 5 = specTentative 0 (Game.new lvl0) 5 ∧
      tentative 0 (Game.new lvl0) 5 =
        ((Game.new lvl0).ball_v, (Game.new lvl0).ball_pos) :=
  ⟨(tentative_semi_implicit_euler 0 (Game.new lvl0) 5 (by simp [Game.new])).1,
   (tentative_semi_implicit_euler 0 (Game.new lvl0) 5 (by simp [Game.new])).2 rfl⟩

/-- C4 amended: the tilt-adjustment calls of this source are set_x_angle /
set_y_angle, which assign the given value to the angle field directly --
no delta accumulation, no clamp, no bound -- and modify no other Game
field. -/
theorem set_angle_assigns_directly (g : Game) (a : ℚ) :
    (g.set_x_angle a).angle_x = a ∧ (g.set_y_angle a).angle_y = a ∧
    (g.set_x_angle a).state = g.state ∧
    (g.set_x_angle a).ball_pos = g.ball_pos ∧
    (g.set_x_angle a).ball_v = g.ball_v ∧
    (g.set_x_angle a).prev_update = g.prev_update ∧
    (g.set_x_angle a).angle_y = g.angle_y ∧
    (g.set_x_angle a).level = g.level ∧
    (g.set_y_angle a).state = g.state ∧
    (g.set_y_angle a).ball_pos = g.ball_pos ∧
    (g.set_y_angle a).ball_v = g.ball_v ∧
    (g.set_y_angle a).prev_update = g.prev_update ∧
    (g.set_y_angle a).angle_x = g.angle_x ∧
    (g.set_y_angle a).level = g.level :=
  ⟨rfl, rfl, rfl, rfl, rfl, rfl, rfl, rfl, rfl, rfl, rfl, rfl, rfl, rfl⟩

/-- C4 counterexample: a single tilt call drives angle_x to 100, far outside
[-MAX_ANGLE, MAX_ANGLE]: the angle is assigned unclamped (and
set_x_angle_reaches_any shows every value is reachable, so no positive
bound could confine it). -/
theorem set_angle_unclamped_counterexample :
    ((Game.new lvl0).set_x_angle 100).angle_x = 100 ∧ MAX_ANGLE < 100 ∧
      ¬(-MAX_ANGLE ≤ ((Game.new lvl0).set_x_angle 100).angle_x ∧
        ((Game.new lvl0).set_x_angle 100).angle_x ≤ MAX_ANGLE) := by
  refine ⟨rfl, by norm_num [MAX_ANGLE], ?_⟩
  intro hc
  have := hc.2
  norm_num [Game.set_x_angle, MAX_ANGLE] at this

/-- C10: a tentative ball center strictly inside a wall rectangle (wider and
taller than 2 * BALL_R) and farther than BALL_R from each of the wall's
corners satisfies none of the four directional collision predicates, so the
per-wall pass of update leaves position and velocity unchanged for that
wall. -/
theorem wall_tunneling (p : Point) (v : Velocity) (wall : Rect)
    (hw : 2 * BALL_R < wall.size.w) (hh : 2 * BALL_R < wall.size.h)
    (hx1 : wall.pos.x < p.x) (hx2 : p.x < wall.pos.x + wall.size.w)
    (hy1 : wall.pos.y < p.y) (hy2 : p.y < wall.pos.y + wall.size.h)
    (htl : BALL_R^2 < Point.dist_sq wall.top_left p)
    (htr : BALL_R^2 < Point.dist_sq wall.top_right p)
    (hbl : BALL_R^2 < Point.dist_sq wall.bottom_left p)
    (hbr : BALL_R^2 < Point.dist_sq wall.bottom_right p) :
    collides_left p wall = false ∧ collides_right p wall = false ∧
    collides_top p wall = false ∧ collides_bottom p wall = false ∧
    wallCollide p v wall = (p, v) := by
  have htl2 := htl
  have htr2 := htr
  have hbl2 := hbl
  have hbr2 := hbr
  simp only [Rect.top_left, Rect.top_right, Rect.bottom_left,
    Rect.bottom_right, Point.dist_sq] at htl2 htr2 hbl2 hbr2
  have hcl : collides_left p wall = false := by
    rw [Bool.eq_false_iff]
    intro hc
    simp only [collides_left, Rect.contains, Rect.adjacent_left,
      Rect.top_left, Rect.bottom_left, Point.dist_sq, Bool.or_eq_true,
      Bool.and_eq_true, decide_eq_true_eq, ge_iff_le] at hc
    rcases hc with (⟨⟨⟨hA, hB⟩, hC⟩, hD⟩ | ⟨hd, hs⟩) | ⟨hd, hs⟩
    · linarith
    · linarith
    · linarith
  have hcr : collides_right p wall = false := by
    rw [Bool.eq_false_iff]
    intro hc
    simp only [collides_right, Rect.contains, Rect.adjacent_right,
      Rect.top_right, Rect.bottom_right, Point.dist_sq, Bool.or_eq_true,
      Bool.and_eq_true, decide_eq_true_eq, ge_iff_le] at hc
    rcases hc with (⟨⟨⟨hA, hB⟩, hC⟩, hD⟩ | ⟨hd, hs⟩) | ⟨hd, hs⟩
    · linarith
    · linarith
    · linarith
  have hct : collides_top p wall = false := by
    rw [Bool.eq_false_iff]
    intro hc
    simp only [collides_top, Rect.contains, Rect.adjacent_top,
      Rect.top_left, Rect.top_right, Point.dist_sq, Bool.or_eq_true,
      Bool.and_eq_true, decide_eq_true_eq, ge_iff_le] at hc
    rcases hc with (⟨⟨⟨hA, hB⟩, hC⟩, hD⟩ | ⟨hd, hs⟩) | ⟨hd, hs⟩
    · linarith
    · linarith
    · linarith
  have hcb : collides_bottom p wall = false := by
    rw [Bool.eq_false_iff]
    intro hc
    simp only [collides_bottom, Rect.contains, Rect.adjacent_bottom,
      Rect.bottom_left, Rect.bottom_right, Point.dist_sq, Bool.or_eq_true,
      Bool.and_eq_true, decide_eq_true_eq, ge_iff_le] at hc
    rcases hc with (⟨⟨⟨hA, hB⟩, hC⟩, hD⟩ | ⟨hd, hs⟩) | ⟨hd, hs⟩
    · linarith
    · linarith
    · linarith
  refine ⟨hcl, hcr, hct, hcb, ?_⟩
  simp [wallCollide, hcl, hcr, hct, hcb]

/-- Witness for C10: a concrete ball center in the middle of a 5 x 5 wall
receives no correction. -/
theorem wall_tunneling_witness :
    collides_left { x := 13/2, y := 13/2 } { pos := { x := 4, y := 4 }, size := { w := 5, h := 5 } } = false ∧
    collides_right { x := 13/2, y := 13/2 } { pos := { x := 4, y := 4 }, size := { w := 5, h := 5 } } = false ∧
    collides_top { x := 13/2, y := 13/2 } { pos := { x := 4, y := 4 }, size := { w := 5, h := 5 } } = false ∧
    collides_bottom { x := 13/2, y := 13/2 } { pos := { x := 4, y := 4 }, size := { w := 5, h := 5 } } = false ∧
    wallCollide { x := 13/2, y := 13/2 } { x := 3, y := -2 }
        { pos := { x := 4, y := 4 }, size := { w := 5, h := 5 } }
      = ({ x := 13/2, y := 13/2 }, { x := 3, y := -2 }) :=
  wall_tunneling { x := 13/2, y := 13/2 } { x := 3, y := -2 }
    { pos := { x := 4, y := 4 }, size := { w := 5, h := 5 } }
    (by norm_num [BALL_R]) (by norm_num [BALL_R])
    (by norm_num) (by norm_num) (by norm_num) (by norm_num)
    (by norm_num [BALL_R, Point.dist_sq, Rect.top_left])
    (by norm_num [BALL_R, Point.dist_sq, Rect.top_right])
    (by norm_num [BALL_R, Point.dist_sq, Rect.bottom_left])
    (by norm_num [BALL_R, Point.dist_sq, Rect.bottom_right])

/-- Helper: update in the InProgress state stores the corrected position and
velocity, the timestamp, and the win/lose state computed from the two
sequential ifs of the source. -/
theorem update_inprogress (accel : ℚ) (g : Game) (time : ℚ)
    (hs : g.state = State.InProgress) :
    Game.update accel g time =
      { g with
        state :=
          if holeFound (correctedPV accel g time).1 g.level.holes then State.Lost
          else if g.level.end_.contains (correctedPV accel g time).1 then State.Won
          else State.InProgress,
        ball_pos := (correctedPV accel g time).1,
        ball_v := (correctedPV accel g time).2,
        prev_update := some time } := by
  unfold Game.update
  rw [hs]

/-- Helper: when only the left board edge condition fires, the edge pass
clamps x to BALL_R and damps v.x, leaving the y components alone. -/
theorem edgeCollide_left (size : Size) (p : Point) (v : Velocity)
    (h1 : p.x < BALL_R) (h2 : BALL_R < size.w - BALL_R)
    (h3 : BALL_R ≤ p.y) (h4 : p.y < size.h - BALL_R) :
    edgeCollide size p v =
      ({ x := BALL_R, y := p.y }, { x := -BOUNCE_COEFF * v.x, y := v.y }) := by
  unfold edgeCollide bounce_x bounce_y
  rw [if_pos h1]
  dsimp only
  have h2n : ¬(BALL_R ≥ size.w - BALL_R) := by push_neg; linarith
  rw [if_neg h2n]
  dsimp only
  have h3n : ¬(p.y < BALL_R) := not_lt.mpr h3
  rw [if_neg h3n]
  dsimp only
  have h4n : ¬(p.y ≥ size.h - BALL_R) := not_le.mpr (by linarith)
  rw [if_neg h4n]

/-- Helper: whatever the input, the four sequential board-edge checks leave
the position inside [BALL_R, w - BALL_R] x [BALL_R, h - BALL_R], provided
the board measures at least 2 * BALL_R each way. -/
theorem edgeCollide_bounds (size : Size) (p : Point) (v : Velocity)
    (hW : 2 * BALL_R ≤ size.w) (hH : 2 * BALL_R ≤ size.h) :
    BALL_R ≤ (edgeCollide size p v).1.x ∧
    (edgeCollide size p v).1.x ≤ size.w - BALL_R ∧
    BALL_R ≤ (edgeCollide size p v).1.y ∧
    (edgeCollide size p v).1.y ≤ size.h - BALL_R := by
  unfold edgeCollide bounce_x bounce_y
  by_cases h1 : p.x < BALL_R
  · rw [if_pos h1]
    dsimp only
    by_cases h2 : BALL_R ≥ size.w - BALL_R
    · rw [if_pos h2]
      dsimp only
      by_cases h3 : p.y < BALL_R
      · rw [if_pos h3]
        dsimp only
        by_cases h4 : BALL_R ≥ size.h - BALL_R
        · rw [if_pos h4]
          refine ⟨?_, ?_, ?_, ?_⟩ <;> dsimp only <;> linarith
        · rw [if_neg h4]
          refine ⟨?_, ?_, ?_, ?_⟩ <;> dsimp only <;> linarith
      · rw [if_neg h3]
        dsimp only
        by_cases h4 : p.y ≥ size.h - BALL_R
        · rw [if_pos h4]
          refine ⟨?_, ?_, ?_, ?_⟩ <;> dsimp only <;> linarith
        · rw [if_neg h4]
          refine ⟨?_, ?_, ?_, ?_⟩ <;> dsimp only <;> linarith
    · rw [if_neg h2]
      dsimp only
      by_cases h3 : p.y < BALL_R
      · rw [if_pos h3]
        dsimp only
        by_cases h4 : BALL_R ≥ size.h - BALL_R
        · rw [if_pos h4]
          refine ⟨?_, ?_, ?_, ?_⟩ <;> dsimp only <;> linarith
        · rw [if_neg h4]
          refine ⟨?_, ?_, ?_, ?_⟩ <;> dsimp only <;> linarith
      · rw [if_neg h3]
        dsimp only
        by_cases h4 : p.y ≥ size.h - BALL_R
        · rw [if_pos h4]
          refine ⟨?_, ?_, ?_, ?_⟩ <;> dsimp only <;> linarith
        · rw [if_neg h4]
          refine ⟨?_, ?_, ?_, ?_⟩ <;> dsimp only <;> linarith
  · rw [if_neg h1]
    dsimp only
    by_cases h2 : p.x ≥ size.w - BALL_R
    · rw [if_pos h2]
      dsimp only
      by_cases h3 : p.y < BALL_R
      · rw [if_pos h3]
        dsimp only
        by_cases h4 : BALL_R ≥ size.h - BALL_R
        · rw [if_pos h4]
          refine ⟨?_, ?_, ?_, ?_⟩ <;> dsimp only <;> linarith
        · rw [if_neg h4]
          refine ⟨?_, ?_, ?_, ?_⟩ <;> dsimp only <;> linarith
      · rw [if_neg h3]
        dsimp only
        by_cases h4 : p.y ≥ size.h - BALL_R
        · rw [if_pos h4]
          refine ⟨?_, ?_, ?_, ?_⟩ <;> dsimp only <;> linarith
        · rw [if_neg h4]
          refine ⟨?_, ?_, ?_, ?_⟩ <;> dsimp only <;> linarith
    · rw [if_neg h2]
      dsimp only
      by_cases h3 : p.y < BALL_R
      · rw [if_pos h3]
        dsimp only
        by_cases h4 : BALL_R ≥ size.h - BALL_R
        · rw [if_pos h4]
          refine ⟨?_, ?_, ?_, ?_⟩ <;> dsimp only <;> linarith
        · rw [if_neg h4]
          refine ⟨?_, ?_, ?_, ?_⟩ <;> dsimp only <;> linarith
      · rw [if_neg h3]
        dsimp only
        by_cases h4 : p.y ≥ size.h - BALL_R
        · rw [if_pos h4]
          refine ⟨?_, ?_, ?_, ?_⟩ <;> dsimp only <;> linarith
        · rw [if_neg h4]
          refine ⟨?_, ?_, ?_, ?_⟩ <;> dsimp only <;> linarith

/-- C9: a head-on collision with the left board edge (tentative velocity
purely along the collision normal, tentative position past the edge, no
walls, other axis well inside the board): the position is clamped to the
contact line x = BALL_R, the y components of position and velocity are
unchanged, the normal velocity component is negated and scaled by
BOUNCE_COEFF, and the post-bounce squared speed is exactly
BOUNCE_COEFF^2 times the incoming squared speed. -/
theorem head_on_left_edge_bounce (accel : ℚ) (g : Game) (time : ℚ)
    (hs : g.state = State.InProgress)
    (hw : g.level.walls = [])
    (hvy : (tentative accel g time).1.y = 0)
    (hpx : (tentative accel g time).2.x < BALL_R)
    (hpy1 : BALL_R ≤ (tentative accel g time).2.y)
    (hpy2 : (tentative accel g time).2.y < g.level.size.h - BALL_R)
    (hww : 2 * BALL_R < g.level.size.w) :
    (Game.update accel g time).ball_v.x
        = -BOUNCE_COEFF * (tentative accel g time).1.x ∧
    (Game.update accel g time).ball_v.y = 0 ∧
    (Game.update accel g time).ball_pos.x = BALL_R ∧
    (Game.update accel g time).ball_pos.y = (tentative accel g time).2.y ∧
    (Game.update accel g time).ball_v.x ^ 2 + (Game.update accel g time).ball_v.y ^ 2
      = BOUNCE_COEFF ^ 2
        * ((tentative accel g time).1.x ^ 2 + (tentative accel g time).1.y ^ 2) := by
  have hcor : correctedPV accel g time =
      ({ x := BALL_R, y := (tentative accel g time).2.y },
       { x := -BOUNCE_COEFF * (tentative accel g time).1.x,
         y := (tentative accel g time).1.y }) := by
    unfold correctedPV
    rw [hw]
    simp only [List.foldl_nil]
    exact edgeCollide_left _ _ _ hpx (by linarith) hpy1 hpy2
  rw [update_inprogress accel g time hs]
  dsimp only
  rw [hcor]
  refine ⟨rfl, hvy, rfl, rfl, ?_⟩
  rw [hvy]
  ring

/-- A game about to hit the left board edge head on, used by the C9
witness. -/
def gLeft : Game :=
  { state := State.InProgress,
    ball_pos := { x := 3/2, y := 5 },
    ball_v := { x := -2, y := 0 },
    prev_update := some 0,
    angle_x := 0,
    angle_y := 0,
    level := lvl0 }

/-- Witness for C9 on gLeft: the incoming tentative velocity is (-2, 0) and
the stored post-bounce state is pos = (1, 5), v = (2/5, 0). -/
theorem head_on_left_edge_bounce_witness :
    ((Game.update 0 gLeft 1).ball_v.x
        = -BOUNCE_COEFF * (tentative 0 gLeft 1).1.x ∧
      (Game.update 0 gLeft 1).ball_v.y = 0 ∧
      (Game.update 0 gLeft 1).ball_pos.x = BALL_R ∧
      (Game.update 0 gLeft 1).ball_pos.y = (tentative 0 gLeft 1).2.y ∧
      (Game.update 0 gLeft 1).ball_v.x ^ 2 + (Game.update 0 gLeft 1).ball_v.y ^ 2
        = BOUNCE_COEFF ^ 2
          * ((tentative 0 gLeft 1).1.x ^ 2 + (tentative 0 gLeft 1).1.y ^ 2)) ∧
    (Game.update 0 gLeft 1).ball_pos = { x := 1, y := 5 } ∧
    (Game.update 0 gLeft 1).ball_v = { x := 2/5, y := 0 } :=
  ⟨head_on_left_edge_bounce 0 gLeft 1 rfl rfl
      (by norm_num [tentative, Game.dt, gLeft, lvl0, max_def])
      (by norm_num [tentative, Game.dt, gLeft, lvl0, max_def, BALL_R])
      (by norm_num [tentative, Game.dt, gLeft, lvl0, max_def, BALL_R])
      (by norm_num [tentative, Game.dt, gLeft, lvl0, max_def, BALL_R])
      (by norm_num [gLeft, lvl0, BALL_R]),
    by norm_num [Game.update, correctedPV, tentative, Game.dt, edgeCollide,
      bounce_x, bounce_y, holeFound, Rect.contains, gLeft, lvl0, max_def,
      BALL_R, BOUNCE_COEFF, List.foldl, List.find?],
    by norm_num [Game.update, correctedPV, tentative, Game.dt, edgeCollide,
      bounce_x, bounce_y, holeFound, Rect.contains, gLeft, lvl0, max_def,
      BALL_R, BOUNCE_COEFF, List.foldl, List.find?]⟩

/-- C5 amended: after an update that runs the physics step on a level with
no walls (so only board-edge resolution acts) and a board at least
2 * BALL_R wide and tall, the stored ball position lies within
[BALL_R, w - BALL_R] x [BALL_R, h - BALL_R].  The wall pass gives no such
guarantee: see the penetration counterexample below. -/
theorem update_no_walls_stays_in_bounds (accel : ℚ) (g : Game) (time : ℚ)
    (hs : g.state = State.InProgress) (hw : g.level.walls = [])
    (hW : 2 * BALL_R ≤ g.level.size.w) (hH : 2 * BALL_R ≤ g.level.size.h) :
    BALL_R ≤ (Game.update accel g time).ball_pos.x ∧
    (Game.update accel g time).ball_pos.x ≤ g.level.size.w - BALL_R ∧
    BALL_R ≤ (Game.update accel g time).ball_pos.y ∧
    (Game.update accel g time).ball_pos.y ≤ g.level.size.h - BALL_R := by
  rw [update_inprogress accel g time hs]
  dsimp only
  unfold correctedPV
  rw [hw]
  simp only [List.foldl_nil]
  exact edgeCollide_bounds _ _ _ hW hH

/-- Witness for the amended C5 on a freshly created wall-free game. -/
theorem update_no_walls_stays_in_bounds_witness :
    BALL_R ≤ (Game.update 3 (Game.new lvl0) 2).ball_pos.x ∧
    (Game.update 3 (Game.new lvl0) 2).ball_pos.x ≤ (Game.new lvl0).level.size.w - BALL_R ∧
    BALL_R ≤ (Game.update 3 (Game.new lvl0) 2).ball_pos.y ∧
    (Game.update 3 (Game.new lvl0) 2).ball_pos.y ≤ (Game.new lvl0).level.size.h - BALL_R :=
  update_no_walls_stays_in_bounds 3 (Game.new lvl0) 2 rfl rfl
    (by norm_num [Game.new, lvl0, BALL_R]) (by norm_num [Game.new, lvl0, BALL_R])

/-- A 4 x 4 wall with top-left corner (4, 4), used by the C1 and C5
counterexamples. -/
def wall4 : Rect :=
  { pos := { x := 4, y := 4 }, size := { w := 4, h := 4 } }

/-- Level containing wall4, used by the C5 counterexample. -/
def lvl5 : Level :=
  { name := "walled",
    size := { w := 20, h := 20 },
    start := { x := 7/2, y := 6 },
    end_ := { pos := { x := 18, y := 18 }, size := { w := 1, h := 1 } },
    walls := [wall4],
    holes := [] }

/-- In-progress game one frame away from crossing into wall4, used by the
C5 counterexample. -/
def g5 : Game :=
  { state := State.InProgress,
    ball_pos := { x := 7/2, y := 6 },
    ball_v := { x := 1, y := 0 },
    prev_update := some 0,
    angle_x := 0,
    angle_y := 0,
    level := lvl5 }

/-- C5 counterexample: updating g5 over dt = 1 moves the ball center to
(9/2, 6), strictly inside wall4 (and within BALL_R of the boundary point
(4, 6) on wall4's left edge), and the wall pass applies no correction: the
stored position persistently penetrates a wall of the level. -/
theorem update_penetration_counterexample :
    (Game.update 0 g5 1).ball_pos = { x := 9/2, y := 6 } ∧
    wall4 ∈ g5.level.walls ∧
    wall4.pos.x < (Game.update 0 g5 1).ball_pos.x ∧
    (Game.update 0 g5 1).ball_pos.x < wall4.pos.x + wall4.size.w ∧
    wall4.pos.y < (Game.update 0 g5 1).ball_pos.y ∧
    (Game.update 0 g5 1).ball_pos.y < wall4.pos.y + wall4.size.h ∧
    Point.dist_sq (Game.update 0 g5 1).ball_pos { x := 4, y := 6 } < BALL_R^2 := by
  have hbp : (Game.update 0 g5 1).ball_pos = { x := 9/2, y := 6 } := by
    norm_num [Game.update, correctedPV, tentative, Game.dt, edgeCollide,
      wallCollide, bounce_x, bounce_y, collides_left, collides_right,
      collides_top, collides_bottom, sector_left_tl, sector_left_bl,
      sector_right_tr, sector_right_br, sector_top_tl, sector_top_tr,
      sector_bottom_bl, sector_bottom_br, Rect.contains, Rect.adjacent_left,
      Rect.adjacent_right, Rect.adjacent_top, Rect.adjacent_bottom,
      Rect.top_left, Rect.top_right, Rect.bottom_left, Rect.bottom_right,
      Point.dist_sq, holeFound, g5, lvl5, wall4, BALL_R, HOLE_R,
      BOUNCE_COEFF, max_def, List.foldl, List.find?]
  rw [hbp]
  refine ⟨rfl, ?_, ?_, ?_, ?_, ?_, ?_⟩ <;>
    norm_num [g5, lvl5, wall4, Point.dist_sq, BALL_R]

/-- C1 amended: the wall-collision pass of update is the discrete
directional method, not the closest-point method: per wall it tests the
four predicates collides_left / right / top / bottom in an else-if chain
(BALL_R-wide strip adjacent to each face, extended by eighth circles at the
face's corners), and on the first hit it clamps only the facing coordinate
to the face offset by BALL_R and scales only that velocity component by
-BOUNCE_COEFF, leaving the tangential components unchanged; when no
predicate fires, position and velocity pass through unchanged. -/
theorem wall_bounce_axis_aligned (p : Point) (v : Velocity) (wall : Rect) :
    (collides_left p wall = true →
      wallCollide p v wall
        = ({ x := wall.pos.x - BALL_R, y := p.y },
           { x := -BOUNCE_COEFF * v.x, y := v.y })) ∧
    (collides_left p wall = false → collides_right p wall = true →
      wallCollide p v wall
        = ({ x := wall.pos.x + wall.size.w + BALL_R, y := p.y },
           { x := -BOUNCE_COEFF * v.x, y := v.y })) ∧
    (collides_left p wall = false → collides_right p wall = false →
      collides_top p wall = true →
      wallCollide p v wall
        = ({ x := p.x, y := wall.pos.y - BALL_R },
           { x := v.x, y := -BOUNCE_COEFF * v.y })) ∧
    (collides_left p wall = false → collides_right p wall = false →
      collides_top p wall = false → collides_bottom p wall = true →
      wallCollide p v wall
        = ({ x := p.x, y := wall.pos.y + wall.size.h + BALL_R },
           { x := v.x, y := -BOUNCE_COEFF * v.y })) ∧
    (collides_left p wall = false → collides_right p wall = false →
      collides_top p wall = false → collides_bottom p wall = false →
      wallCollide p v wall = (p, v)) := by
  refine ⟨?_, ?_, ?_, ?_, ?_⟩
  · intro hL
    simp [wallCollide, bounce_x, hL]
  · intro hL hR
    simp [wallCollide, bounce_x, hL, hR]
  · intro hL hR hT
    simp [wallCollide, bounce_y, hL, hR, hT]
  · intro hL hR hT hB
    simp [wallCollide, bounce_y, hL, hR, hT, hB]
  · intro hL hR hT hB
    simp [wallCollide, hL, hR, hT, hB]

/-- Witness for the amended C1: one concrete instance per branch of the
else-if chain, against wall4. -/
theorem wall_bounce_axis_aligned_witness :
    wallCollide { x := 7/2, y := 5 } { x := 2, y := 3 } wall4
      = ({ x := 3, y := 5 }, { x := -2/5, y := 3 }) ∧
    wallCollide { x := 17/2, y := 5 } { x := 2, y := 3 } wall4
      = ({ x := 9, y := 5 }, { x := -2/5, y := 3 }) ∧
    wallCollide { x := 5, y := 7/2 } { x := 2, y := 3 } wall4
      = ({ x := 5, y := 3 }, { x := 2, y := -3/5 }) ∧
    wallCollide { x := 5, y := 17/2 } { x := 2, y := 3 } wall4
      = ({ x := 5, y := 9 }, { x := 2, y := -3/5 }) ∧
    wallCollide { x := 6, y := 6 } { x := 2, y := 3 } wall4
      = ({ x := 6, y := 6 }, { x := 2, y := 3 }) := by
  have e1 := (wall_bounce_axis_aligned { x := 7/2, y := 5 } { x := 2, y := 3 } wall4).1
    (by norm_num [collides_left, sector_left_tl, sector_left_bl,
      Rect.contains, Rect.adjacent_left, Rect.top_left, Rect.bottom_left,
      Point.dist_sq, wall4, BALL_R])
  have e2 := (wall_bounce_axis_aligned { x := 17/2, y := 5 } { x := 2, y := 3 } wall4).2.1
    (by norm_num [collides_left, sector_left_tl, sector_left_bl,
      Rect.contains, Rect.adjacent_left, Rect.top_left, Rect.bottom_left,
      Point.dist_sq, wall4, BALL_R])
    (by norm_num [collides_right, sector_right_tr, sector_right_br,
      Rect.contains, Rect.adjacent_right, Rect.top_right, Rect.bottom_right,
      Point.dist_sq, wall4, BALL_R])
  have e3 := (wall_bounce_axis_aligned { x := 5, y := 7/2 } { x := 2, y := 3 } wall4).2.2.1
    (by norm_num [collides_left, sector_left_tl, sector_left_bl,
      Rect.contains, Rect.adjacent_left, Rect.top_left, Rect.bottom_left,
      Point.dist_sq, wall4, BALL_R])
    (by norm_num [collides_right, sector_right_tr, sector_right_br,
      Rect.contains, Rect.adjacent_right, Rect.top_right, Rect.bottom_right,
      Point.dist_sq, wall4, BALL_R])
    (by norm_num [collides_top, sector_top_tl, sector_top_tr,
      Rect.contains, Rect.adjacent_top, Rect.top_left, Rect.top_right,
      Point.dist_sq, wall4, BALL_R])
  have e4 := (wall_bounce_axis_aligned { x := 5, y := 17/2 } { x := 2, y := 3 } wall4).2.2.2.1
    (by norm_num [collides_left, sector_left_tl, sector_left_bl,
      Rect.contains, Rect.adjacent_left, Rect.top_left, Rect.bottom_left,
      Point.dist_sq, wall4, BALL_R])
    (by norm_num [collides_right, sector_right_tr, sector_right_br,
      Rect.contains, Rect.adjacent_right, Rect.top_right, Rect.bottom_right,
      Point.dist_sq, wall4, BALL_R])
    (by norm_num [collides_top, sector_top_tl, sector_top_tr,
      Rect.contains, Rect.adjacent_top, Rect.top_left, Rect.top_right,
      Point.dist_sq, wall4, BALL_R])
    (by norm_num [collides_bottom, sector_bottom_bl, sector_bottom_br,
      Rect.contains, Rect.adjacent_bottom, Rect.bottom_left,
      Rect.bottom_right, Point.dist_sq, wall4, BALL_R])
  have e5 := (wall_bounce_axis_aligned { x := 6, y := 6 } { x := 2, y := 3 } wall4).2.2.2.2
    (by norm_num [collides_left, sector_left_tl, sector_left_bl,
      Rect.contains, Rect.adjacent_left, Rect.top_left, Rect.bottom_left,
      Point.dist_sq, wall4, BALL_R])
    (by norm_num [collides_right, sector_right_tr, sector_right_br,
      Rect.contains, Rect.adjacent_right, Rect.top_right, Rect.bottom_right,
      Point.dist_sq, wall4, BALL_R])
    (by norm_num [collides_top, sector_top_tl, sector_top_tr,
      Rect.contains, Rect.adjacent_top, Rect.top_left, Rect.top_right,
      Point.dist_sq, wall4, BALL_R])
    (by norm_num [collides_bottom, sector_bottom_bl, sector_bottom_br,
      Rect.contains, Rect.adjacent_bottom, Rect.bottom_left,
      Rect.bottom_right, Point.dist_sq, wall4, BALL_R])
  refine ⟨?_, ?_, ?_, ?_, ?_⟩
  · rw [e1]
    norm_num [wall4, BALL_R, BOUNCE_COEFF]
  · rw [e2]
    norm_num [wall4, BALL_R, BOUNCE_COEFF]
  · rw [e3]
    norm_num [wall4, BALL_R, BOUNCE_COEFF]
  · rw [e4]
    norm_num [wall4, BALL_R, BOUNCE_COEFF]
  · rw [e5]

/-- C1 counterexample: a ball center at (9/2, 6) overlaps wall4 -- its
distance to the spec's closest point is 0, well below BALL_R, so the
claimed closest-point criterion says a collision occurs and the ball is
pushed out -- yet the code's wall pass leaves position and velocity
completely unchanged. -/
theorem wall_closest_point_counterexample :
    Point.dist_sq { x := 9/2, y := 6 }
        (closestPoint { x := 9/2, y := 6 } wall4) < BALL_R^2 ∧
    wallCollide { x := 9/2, y := 6 } { x := 1, y := 0 } wall4
      = ({ x := 9/2, y := 6 }, { x := 1, y := 0 }) := by
  constructor
  · norm_num [Point.dist_sq, closestPoint, clampQ, wall4, BALL_R,
      max_def, min_def]
  · norm_num [wallCollide, collides_left, collides_right, collides_top,
      collides_bottom, sector_left_tl, sector_left_bl, sector_right_tr,
      sector_right_br, sector_top_tl, sector_top_tr, sector_bottom_bl,
      sector_bottom_br, Rect.contains, Rect.adjacent_left,
      Rect.adjacent_right, Rect.adjacent_top, Rect.adjacent_bottom,
      Rect.top_left, Rect.top_right, Rect.bottom_left, Rect.bottom_right,
      Point.dist_sq, wall4, BALL_R]

/-- C2 amended: after the collision-corrected position p is computed, the
source runs two independent ifs, not an if/else: the goal check sets Won
first, then the hole check runs regardless and overwrites the state with
Lost when p is within HOLE_R of some hole.  The resulting state is Lost
whenever a hole matches (even if p is inside the goal rectangle), Won when
p is in the goal rectangle and no hole matches, and InProgress otherwise. -/
theorem update_state_characterization (accel : ℚ) (g : Game) (time : ℚ)
    (hs : g.state = State.InProgress) :
    (Game.update accel g time).state =
      (if holeFound (correctedPV accel g time).1 g.level.holes then State.Lost
       else if g.level.end_.contains (correctedPV accel g time).1 then State.Won
       else State.InProgress) := by
  rw [update_inprogress accel g time hs]

/-- Level whose goal rectangle contains a hole, used by the C2
counterexample and witness. -/
def lvlGoalHole : Level :=
  { name := "goalhole",
    size := { w := 20, h := 20 },
    start := { x := 4, y := 4 },
    end_ := { pos := { x := 2, y := 2 }, size := { w := 4, h := 4 } },
    walls := [],
    holes := [{ x := 4, y := 4 }] }

/-- Game starting on the hole inside the goal rectangle. -/
def gGoalHole : Game := Game.new lvlGoalHole

/-- Witness for the amended C2: on gGoalHole the characterization evaluates
to Lost. -/
theorem update_state_characterization_witness :
    gGoalHole.state = State.InProgress ∧
    (Game.update 0 gGoalHole 0).state = State.Lost :=
  ⟨rfl,
   (update_state_characterization 0 gGoalHole 0 rfl).trans
     (by norm_num [correctedPV, tentative, Game.dt, edgeCollide, bounce_x,
       bounce_y, holeFound, Rect.contains, Point.dist_sq, gGoalHole,
       lvlGoalHole, Game.new, BALL_R, HOLE_R, List.foldl, List.find?])⟩

/-- C2 counterexample: the corrected position (4, 4) lies in the goal
rectangle and within HOLE_R of the hole (4, 4); the resulting state is
Lost, not Won -- the hole check is not guarded by the goal check, and it
wins. -/
theorem update_goal_overridden_by_hole_counterexample :
    gGoalHole.level.end_.contains (Game.update 0 gGoalHole 0).ball_pos = true ∧
    Point.dist_sq (Game.update 0 gGoalHole 0).ball_pos { x := 4, y := 4 } < HOLE_R^2 ∧
    (Game.update 0 gGoalHole 0).state = State.Lost ∧
    State.Lost ≠ State.Won := by
  have hbp : (Game.update 0 gGoalHole 0).ball_pos = { x := 4, y := 4 } := by
    norm_num [Game.update, correctedPV, tentative, Game.dt, edgeCollide,
      bounce_x, bounce_y, holeFound, Rect.contains, Point.dist_sq,
      gGoalHole, lvlGoalHole, Game.new, BALL_R, HOLE_R, List.foldl,
      List.find?]
  refine ⟨?_, ?_, ?_, by decide⟩
  · rw [hbp]
    norm_num [Rect.contains, gGoalHole, lvlGoalHole, Game.new]
  · rw [hbp]
    norm_num [Point.dist_sq, HOLE_R, BALL_R]
  · norm_num [Game.update, correctedPV, tentative, Game.dt, edgeCollide,
      bounce_x, bounce_y, holeFound, Rect.contains, Point.dist_sq,
      gGoalHole, lvlGoalHole, Game.new, BALL_R, HOLE_R, List.foldl,
      List.find?]

/-- C3 amended: when the corrected position is outside the goal rectangle
and within HOLE_R of some hole, update transitions the state to Lost and
records the call timestamp only in prev_update; the State enum of this
source carries no payload, so neither the matched hole (the first in
level-data order, via find?) nor a loss timestamp is stored in the state. -/
theorem update_hole_transitions_to_lost (accel : ℚ) (g : Game) (time : ℚ)
    (hs : g.state = State.InProgress)
    (hng : g.level.end_.contains (correctedPV accel g time).1 = false)
    (hh : holeFound (correctedPV accel g time).1 g.level.holes = true) :
    (Game.update accel g time).state = State.Lost ∧
    (Game.update accel g time).prev_update = some time := by
  rw [update_inprogress accel g time hs]
  refine ⟨?_, rfl⟩
  simp [hh]

/-- Level with one hole at (4, 4) and a distant goal, used by the C3
witness and counterexample. -/
def lvlHoleA : Level :=
  { name := "holeA",
    size := { w := 20, h := 20 },
    start := { x := 4, y := 4 },
    end_ := { pos := { x := 18, y := 18 }, size := { w := 1, h := 1 } },
    walls := [],
    holes := [{ x := 4, y := 4 }] }

/-- Game starting on the hole of lvlHoleA. -/
def gHoleA : Game := Game.new lvlHoleA

/-- Level with one hole at (10, 10) and a distant goal, used by the C3
counterexample. -/
def lvlHoleB : Level :=
  { name := "holeB",
    size := { w := 20, h := 20 },
    start := { x := 10, y := 10 },
    end_ := { pos := { x := 18, y := 18 }, size := { w := 1, h := 1 } },
    walls := [],
    holes := [{ x := 10, y := 10 }] }

/-- Game starting on the hole of lvlHoleB. -/
def gHoleB : Game := Game.new lvlHoleB

/-- Witness for the amended C3 on gHoleA at time 5. -/
theorem update_hole_transitions_to_lost_witness :
    (Game.update 0 gHoleA 5).state = State.Lost ∧
    (Game.update 0 gHoleA 5).prev_update = some 5 :=
  update_hole_transitions_to_lost 0 gHoleA 5 rfl
    (by norm_num [correctedPV, tentative, Game.dt, edgeCollide, bounce_x,
      bounce_y, Rect.contains, gHoleA, lvlHoleA, Game.new, BALL_R,
      List.foldl])
    (by norm_num [correctedPV, tentative, Game.dt, edgeCollide, bounce_x,
      bounce_y, holeFound, Point.dist_sq, gHoleA, lvlHoleA, Game.new,
      BALL_R, HOLE_R, List.foldl, List.find?])

/-- C3 counterexample: two losing updates over different holes ((4, 4)
versus (10, 10)) at different call times (5 versus 7) end in literally the
same state value: State.Lost is a bare constructor, so the state cannot
carry the matched hole or a t_lost timestamp as the claim asserts. -/
theorem lost_carries_no_payload_counterexample :
    (Game.update 0 gHoleA 5).state = State.Lost ∧
    (Game.update 0 gHoleB 7).state = State.Lost ∧
    (Game.update 0 gHoleA 5).state = (Game.update 0 gHoleB 7).state ∧
    gHoleA.level.holes = [{ x := 4, y := 4 }] ∧
    gHoleB.level.holes = [{ x := 10, y := 10 }] ∧
    ({ x := 4, y := 4 } : Point) ≠ { x := 10, y := 10 } ∧
    (5 : ℚ) ≠ 7 := by
  have hA : (Game.update 0 gHoleA 5).state = State.Lost := by
    norm_num [Game.update, correctedPV, tentative, Game.dt, edgeCollide,
      bounce_x, bounce_y, holeFound, Rect.contains, Point.dist_sq, gHoleA,
      lvlHoleA, Game.new, BALL_R, HOLE_R, List.foldl, List.find?]
  have hB : (Game.update 0 gHoleB 7).state = State.Lost := by
    norm_num [Game.update, correctedPV, tentative, Game.dt, edgeCollide,
      bounce_x, bounce_y, holeFound, Rect.contains, Point.dist_sq, gHoleB,
      lvlHoleB, Game.new, BALL_R, HOLE_R, List.foldl, List.find?]
  refine ⟨hA, hB, hA.trans hB.symm, rfl, rfl, ?_, by norm_num⟩
  intro hcontra
  have := congrArg Point.x hcontra
  norm_num at this

/-- Fall animation written from the spec's words (section 4.6 / claim C8):
roll-over phase for t < ROLL_OVER_DURATION with xy linearly interpolated
from the last ball position toward free_fall_point and spherical-rim
height, free-fall phase for ROLL_OVER_DURATION <= t < TOTAL_DURATION with
xy fixed at free_fall_point and height dropping linearly from 0 to
-FREE_FALL_DEPTH, then None. -/
def animate_fall_spec (sq : ℚ → ℚ) (t : ℚ)
    (last_ball_pos hole_pos : Point) : Option (ℚ × ℚ × ℚ) :=
  let hole : Vec2 := { x := hole_pos.x, y := hole_pos.y }
  let ball0 : Vec2 := { x := last_ball_pos.x, y := last_ball_pos.y }
  let ffp := free_fall_point sq ball0 hole
  if t < ROLL_OVER_DURATION then
    let xy := Vec2.add ball0 (Vec2.scale (Vec2.sub ffp ball0) (t / ROLL_OVER_DURATION))
    some (xy.x, xy.y, sq (BALL_R^2 - (HOLE_R - Vec2.dist sq hole xy)^2))
  else if t < TOTAL_DURATION then
    some (ffp.x, ffp.y,
      0 + (-FREE_FALL_DEPTH - 0) * ((t - ROLL_OVER_DURATION) / FREE_FALL_DURATION))
  else none

/-- C8: for every nonnegative time the source fall-animation function
agrees with the spec's three-phase description (pure in t, last ball
position and hole position; quantified over the sqrt interpretation). -/
theorem animate_fall_three_phases (sq : ℚ → ℚ) (t : ℚ)
    (b h : Point) (ht : 0 ≤ t) :
    animate_ball_falling_in_hole sq t b h = animate_fall_spec sq t b h := by
  unfold animate_ball_falling_in_hole animate_fall_spec
  split_ifs with h1 h2
  · rfl
  · simp only [Option.some.injEq, Prod.mk.injEq, true_and]
    ring
  · rfl

/-- Witness for C8: agreement at t = 3/20 with the identity sqrt (exact on
the perfect squares this input produces); concretely the free-fall sample
is some (3, 13/4, -3/2) and t = 3/10 is past TOTAL_DURATION, giving none. -/
theorem animate_fall_three_phases_witness :
    (0 : ℚ) ≤ 3/20 ∧
    animate_ball_falling_in_hole (fun x => x) (3/20)
        { x := 3, y := 4 } { x := 3, y := 3 }
      = animate_fall_spec (fun x => x) (3/20)
        { x := 3, y := 4 } { x := 3, y := 3 } ∧
    animate_ball_falling_in_hole (fun x => x) (3/20)
        { x := 3, y := 4 } { x := 3, y := 3 }
      = some (3, 13/4, -3/2) ∧
    animate_ball_falling_in_hole (fun x => x) (3/10)
        { x := 3, y := 4 } { x := 3, y := 3 } = none :=
  ⟨by norm_num,
   animate_fall_three_phases (fun x => x) (3/20)
     { x := 3, y := 4 } { x := 3, y := 3 } (by norm_num),
   by norm_num [animate_ball_falling_in_hole, free_fall_point, Vec2.add,
     Vec2.sub, Vec2.scale, Vec2.normalize, Vec2.length, Vec2.dist,
     ROLL_OVER_DURATION, TOTAL_DURATION, FREE_FALL_DURATION,
     FREE_FALL_DEPTH, HOLE_R, BALL_R],
   by norm_num [animate_ball_falling_in_hole, ROLL_OVER_DURATION,
     TOTAL_DURATION, FREE_FALL_DURATION]⟩
